import Mathlib

/-!
Shallow embedding of the BM-21 range-analysis pipeline (`src/main.rs`) and
verification of its specification claims.

Rust `f64` arithmetic is modelled over `ℝ`; `usize` arithmetic over `ℕ`
(with truncating division `Nat.div` and truncating float-to-int casts
modelled by `Nat.floor`).  Vectors of points are modelled as `List`s.
-/

namespace BM21

/-- `struct BM21Specs` from the source. -/
structure BM21Specs where
  max_range_45deg : ℝ
  max_range_operational : ℝ
  rocket_mass : ℝ
  warhead_mass : ℝ
  rocket_length : ℝ
  rocket_diameter : ℝ

/-- `BM21Specs::new()`. -/
noncomputable def bm21Specs : BM21Specs :=
  { max_range_45deg := 20000
    max_range_operational := 15000
    rocket_mass := 66
    warhead_mass := 18.4
    rocket_length := 2.87
    rocket_diameter := 122 }

/-- Rust `f64::to_radians`: multiplication by `π / 180`. -/
noncomputable def toRadians (x : ℝ) : ℝ := x * (Real.pi / 180)

/-- Rust `f64::atan2 (self = y, other = x)`, restricted to real arguments
(the signed-zero distinctions of IEEE 754 collapse in `ℝ`). -/
noncomputable def atan2 (y x : ℝ) : ℝ :=
  if 0 < x then Real.arctan (y / x)
  else if x < 0 ∧ 0 ≤ y then Real.arctan (y / x) + Real.pi
  else if x < 0 ∧ y < 0 then Real.arctan (y / x) - Real.pi
  else if x = 0 ∧ 0 < y then Real.pi / 2
  else if x = 0 ∧ y < 0 then -(Real.pi / 2)
  else 0

/-- `fn haversine_distance` from the source. -/
noncomputable def haversine_distance (lat1 lon1 lat2 lon2 : ℝ) : ℝ :=
  let r : ℝ := 6371000
  let lat1_rad := toRadians lat1
  let lat2_rad := toRadians lat2
  let delta_lat := toRadians (lat2 - lat1)
  let delta_lon := toRadians (lon2 - lon1)
  let a := Real.sin (delta_lat / 2) ^ 2 +
    Real.cos lat1_rad * Real.cos lat2_rad * Real.sin (delta_lon / 2) ^ 2
  let c := 2 * atan2 (Real.sqrt a) (Real.sqrt (1 - a))
  r * c

/-! Scenario constants fixed in `main`. -/

noncomputable def cambodiaLat : ℝ := 14.3559
noncomputable def cambodiaLon : ℝ := 103.2586
noncomputable def thaiLat : ℝ := 15.1198505
noncomputable def thaiLon : ℝ := 104.3200196

noncomputable def actualDistance : ℝ :=
  haversine_distance cambodiaLat cambodiaLon thaiLat thaiLon

noncomputable def grav : ℝ := 9.81
noncomputable def v0 : ℝ := 690
noncomputable def optimalAngle : ℝ := 45
noncomputable def theta : ℝ := optimalAngle * Real.pi / 180

def fps : ℕ := 15
def videoDuration : ℕ := 15
def totalFrames : ℕ := fps * videoDuration

noncomputable def tFlight : ℝ := 2 * v0 * Real.sin theta / grav
noncomputable def rangeTheoretical : ℝ := v0 ^ 2 * Real.sin (2 * theta) / grav
noncomputable def maxH : ℝ := v0 ^ 2 * Real.sin theta ^ 2 / (2 * grav)

noncomputable def rangeShortfall : ℝ := actualDistance - bm21Specs.max_range_operational
noncomputable def rangeMultiplier : ℝ := actualDistance / bm21Specs.max_range_operational

noncomputable def maxDistance : ℝ :=
  max (max actualDistance rangeTheoretical) bm21Specs.max_range_operational

noncomputable def chartXMax : ℝ :=
  if rangeTheoretical < maxDistance then max (rangeTheoretical * 2.5) 25000
  else max (maxDistance * 1.1) 25000

noncomputable def chartYMax : ℝ := max (maxH * 1.5) 800

/-- `trajectory_resolution = total_frames * 2`. -/
def trajectoryResolution : ℕ := totalFrames * 2

/-- The dense trajectory sampler (the `for i in 0..trajectory_resolution` loop):
`t = t_flight * i / (resolution - 1)`, `x = v0 cos θ t`,
`y = max (v0 sin θ t - 0.5 g t², 0)`. -/
noncomputable def sampleDense (flightTime speed angle g : ℝ) (resolution : ℕ) :
    List (ℝ × ℝ) :=
  (List.range resolution).map fun (i : ℕ) =>
    let t := flightTime * (i : ℝ) / ((resolution : ℝ) - 1)
    (speed * Real.cos angle * t, max (speed * Real.sin angle * t - 0.5 * g * t ^ 2) 0)

noncomputable def trajectoryPoints : List (ℝ × ℝ) :=
  sampleDense tFlight v0 theta grav trajectoryResolution

/-- The animation sampler (the `for i in 0..total_frames` loop):
`idx = (i * denseLength / totalFrames).min (denseLength - 1)`, indexing the
dense sequence (in the program the dense length equals `trajectory_resolution`). -/
def sampleAnimation {α : Type} [Inhabited α] (dense : List α) (frames : ℕ) : List α :=
  (List.range frames).map fun i =>
    dense.getD (min (i * dense.length / frames) (dense.length - 1)) default

noncomputable def animationPoints : List (ℝ × ℝ) :=
  sampleAnimation trajectoryPoints totalFrames

lemma sampleDense_length (flightTime speed angle g : ℝ) (resolution : ℕ) :
    (sampleDense flightTime speed angle g resolution).length = resolution := by
  rw [sampleDense, List.length_map, List.length_range]

lemma trajectoryPoints_length : trajectoryPoints.length = 450 := by
  rw [trajectoryPoints, sampleDense_length]
  rfl

lemma sampleAnimation_length {α : Type} [Inhabited α] (dense : List α) (frames : ℕ) :
    (sampleAnimation dense frames).length = frames := by
  simp [sampleAnimation]

lemma animationPoints_length : animationPoints.length = 225 := by
  simp [animationPoints, sampleAnimation_length, totalFrames, fps, videoDuration]

/-- C3 counterexample: the dense resolution in the default configuration is
`2 * totalFrames = 450`, not `30`. -/
theorem trajectoryResolution_ne_thirty :
    trajectoryResolution = 2 * totalFrames ∧ trajectoryResolution ≠ 30 := by
  constructor
  · simp [trajectoryResolution, Nat.mul_comm]
  · simp [trajectoryResolution, totalFrames, fps, videoDuration]

/-- C3 (amended): the dense-trajectory resolution equals `2 * totalFrames`,
which in the default configuration is `450` (not `30`); `sampleDense` samples
time uniformly from `0` to `flightTime` inclusive in `resolution` steps
(grid node `i` at `flightTime * i / (resolution - 1)`), clamping height to be
at least `0`. -/
theorem sampleDense_grid (flightTime speed angle g : ℝ) (n : ℕ) (hn : 2 ≤ n) :
    trajectoryResolution = 2 * totalFrames ∧ trajectoryResolution = 450 ∧
    (sampleDense flightTime speed angle g n).length = n ∧
    (∀ i, i < n →
      (sampleDense flightTime speed angle g n)[i]? =
        some (speed * Real.cos angle * (flightTime * (i : ℝ) / ((n : ℝ) - 1)),
          max (speed * Real.sin angle * (flightTime * (i : ℝ) / ((n : ℝ) - 1)) -
            0.5 * g * (flightTime * (i : ℝ) / ((n : ℝ) - 1)) ^ 2) 0)) ∧
    (sampleDense flightTime speed angle g n)[0]? = some (0, 0) ∧
    (sampleDense flightTime speed angle g n)[n - 1]? =
      some (speed * Real.cos angle * flightTime,
        max (speed * Real.sin angle * flightTime - 0.5 * g * flightTime ^ 2) 0) ∧
    ∀ p ∈ sampleDense flightTime speed angle g n, 0 ≤ p.2 := by
  have hidx : ∀ i, i < n →
      (sampleDense flightTime speed angle g n)[i]? =
        some (speed * Real.cos angle * (flightTime * (i : ℝ) / ((n : ℝ) - 1)),
          max (speed * Real.sin angle * (flightTime * (i : ℝ) / ((n : ℝ) - 1)) -
            0.5 * g * (flightTime * (i : ℝ) / ((n : ℝ) - 1)) ^ 2) 0) := by
    intro i hi
    rw [sampleDense, List.getElem?_map, List.getElem?_range hi]
    rfl
  refine ⟨by rw [trajectoryResolution, Nat.mul_comm],
    by rfl,
    sampleDense_length _ _ _ _ _, hidx, ?_, ?_, ?_⟩
  · rw [hidx 0 (by omega)]
    norm_num
  · rw [hidx (n - 1) (by omega)]
    have hne : (n : ℝ) - 1 ≠ 0 := by
      have : (2 : ℝ) ≤ (n : ℝ) := by exact_mod_cast hn
      linarith
    have hcast : ((n - 1 : ℕ) : ℝ) = (n : ℝ) - 1 := by
      have : (1 : ℕ) ≤ n := by omega
      push_cast [this]
      ring
    rw [hcast]
    rw [mul_div_assoc, div_self hne, mul_one]
  · intro p hp
    simp only [sampleDense, List.mem_map, List.mem_range] at hp
    obtain ⟨i, _, rfl⟩ := hp
    exact le_max_right _ _

/-- Witness for `sampleDense_grid` at a concrete input. -/
theorem sampleDense_grid_witness :
    2 ≤ 3 ∧ (sampleDense 1 1 0 1 3).length = 3 :=
  ⟨by norm_num, (sampleDense_grid 1 1 0 1 3 (by norm_num)).2.2.1⟩

/-- C5: for every frame index `i < frames` the animation sample is the
dense-sequence element at index `min (i * denseLength / frames) (denseLength - 1)`
(floor division, clamped to the last valid index); the animation sequence has
exactly `frames` elements, and every element is a member of the dense sequence. -/
theorem sampleAnimation_spec {α : Type} [Inhabited α] (dense : List α) (frames : ℕ)
    (hd : 0 < dense.length) :
    (sampleAnimation dense frames).length = frames ∧
    (∀ i, i < frames →
      (sampleAnimation dense frames)[i]? =
        some (dense.getD (min (i * dense.length / frames) (dense.length - 1)) default)) ∧
    ∀ x ∈ sampleAnimation dense frames, x ∈ dense := by
  refine ⟨sampleAnimation_length dense frames, ?_, ?_⟩
  · intro i hi
    simp [sampleAnimation, List.getElem?_range hi]
  · intro x hx
    simp only [sampleAnimation, List.mem_map, List.mem_range] at hx
    obtain ⟨i, _, rfl⟩ := hx
    have hlt : min (i * dense.length / frames) (dense.length - 1) < dense.length := by
      have : dense.length - 1 < dense.length := by omega
      omega
    rw [List.getD_eq_getElem dense default hlt]
    exact List.getElem_mem hlt

/-- Witness for `sampleAnimation_spec` at a concrete input. -/
theorem sampleAnimation_spec_witness :
    0 < [7, 9].length ∧ (sampleAnimation [7, 9] 5).length = 5 :=
  ⟨by norm_num, (sampleAnimation_spec [7, 9] 5 (by norm_num)).1⟩

/-- C6: the dense trajectory has length `resolution`, its first point is
`(0, 0)`, every height is nonnegative, and the horizontal coordinate is
non-decreasing along the sequence. -/
theorem sampleDense_shape (flightTime speed angle g : ℝ) (n : ℕ)
    (hft : 0 ≤ flightTime) (hvc : 0 ≤ speed * Real.cos angle) :
    (sampleDense flightTime speed angle g n).length = n ∧
    (0 < n → (sampleDense flightTime speed angle g n)[0]? = some (0, 0)) ∧
    (∀ p ∈ sampleDense flightTime speed angle g n, 0 ≤ p.2) ∧
    (sampleDense flightTime speed angle g n).Chain' fun p q => p.1 ≤ q.1 := by
  refine ⟨sampleDense_length _ _ _ _ _, ?_, ?_, ?_⟩
  · intro hn
    rw [sampleDense, List.getElem?_map, List.getElem?_range hn]
    simp only [Option.map_some', Option.some.injEq]
    norm_num
  · intro p hp
    simp only [sampleDense, List.mem_map, List.mem_range] at hp
    obtain ⟨i, _, rfl⟩ := hp
    exact le_max_right _ _
  · rw [sampleDense, List.chain'_map]
    cases n with
    | zero => simp
    | succ m =>
      refine (List.chain'_range_succ _ m).mpr ?_
      intro i _
      simp only
      have hstep : flightTime * (i : ℝ) ≤ flightTime * ((i + 1 : ℕ) : ℝ) := by
        have hle : (i : ℝ) ≤ ((i + 1 : ℕ) : ℝ) := by push_cast; linarith
        exact mul_le_mul_of_nonneg_left hle hft
      have hd0 : (0 : ℝ) ≤ ((m + 1 : ℕ) : ℝ) - 1 := by
        push_cast
        have : (0 : ℝ) ≤ (m : ℝ) := Nat.cast_nonneg m
        linarith
      have ht : flightTime * (i : ℝ) / (((m + 1 : ℕ) : ℝ) - 1) ≤
          flightTime * ((i + 1 : ℕ) : ℝ) / (((m + 1 : ℕ) : ℝ) - 1) :=
        div_le_div_of_nonneg_right hstep hd0
      exact mul_le_mul_of_nonneg_left ht hvc

/-- Witness for `sampleDense_shape` at a concrete input. -/
theorem sampleDense_shape_witness :
    (0 : ℝ) ≤ 1 ∧ (sampleDense 1 1 0 1 4).length = 4 :=
  ⟨by norm_num,
    (sampleDense_shape 1 1 0 1 4 (by norm_num)
      (by rw [Real.cos_zero]; norm_num)).1⟩

/-- The ghost trail drawn for frame `i` (`if i > 5`, the points at indices
`i - 5 ..= i` of the animation sequence: `skip (i - 5)` then `take 6`). -/
def ghostTrail {α : Type} (animation : List α) (i : ℕ) : List α :=
  if 5 < i then (animation.drop (i - 5)).take 6 else []

/-- C7: for frame index `i` with `i < length`, the ghost trail has length
`min 6 (i + 1)`; for `i ≤ 5` no trail is drawn, and for `i > 5` the trail
connects exactly the animation positions at indices `i - 5` through `i`. -/
theorem ghostTrail_spec {α : Type} (animation : List α) (i : ℕ)
    (hi : i < animation.length) :
    (i ≤ 5 → ghostTrail animation i = []) ∧
    (5 < i → (ghostTrail animation i).length = min 6 (i + 1) ∧
      ∀ k, k < 6 → (ghostTrail animation i)[k]? = animation[i - 5 + k]?) := by
  constructor
  · intro hle
    rw [ghostTrail, if_neg (by omega)]
  · intro hgt
    rw [ghostTrail, if_pos hgt]
    have hlen : ((animation.drop (i - 5)).take 6).length = 6 := by
      rw [List.length_take, List.length_drop]
      omega
    refine ⟨by rw [hlen]; omega, ?_⟩
    intro k hk
    rw [List.getElem?_take_of_lt hk, List.getElem?_drop]

/-- Witness for `ghostTrail_spec` at a concrete input. -/
theorem ghostTrail_spec_witness :
    7 < (List.range 10).length ∧ (7 ≤ 5 → ghostTrail (List.range 10) 7 = []) :=
  ⟨by simp, (ghostTrail_spec (List.range 10) 7 (by simp)).1⟩

/-! The compositor's per-frame progress and active-path prefix
(`animation_progress` and the `take` on line 151). -/

/-- `((i + 1) as f64 / total_frames as f64 * trajectory_resolution as f64) as usize`:
the cast truncates the nonnegative real, i.e. takes the floor. -/
noncomputable def animationProgress (i : ℕ) : ℕ :=
  Nat.floor (((i + 1 : ℕ) : ℝ) / (totalFrames : ℝ) * (trajectoryResolution : ℝ))

/-- The active trajectory drawn on frame `i`:
`trajectory_points.iter().take(animation_progress.min(trajectory_points.len()))`. -/
noncomputable def activeTrajectory (i : ℕ) : List (ℝ × ℝ) :=
  trajectoryPoints.take (min (animationProgress i) trajectoryPoints.length)

/-- C10: for every frame index `i < totalFrames` the compositor's sequence
accesses are in bounds: the clamped animation index is a valid dense index,
`i` is a valid animation index (the marker-draw guard always holds), the
clamped active-path prefix length never exceeds the dense length, and on the
final frame the active trajectory is the entire dense trajectory. -/
theorem compositor_in_bounds (i : ℕ) (hi : i < totalFrames) :
    min (i * trajectoryResolution / totalFrames) (trajectoryResolution - 1) <
      trajectoryPoints.length ∧
    i < animationPoints.length ∧
    min (animationProgress i) trajectoryPoints.length ≤ trajectoryPoints.length ∧
    activeTrajectory (totalFrames - 1) = trajectoryPoints := by
  have hres : trajectoryResolution = 450 := rfl
  have htf : totalFrames = 225 := rfl
  refine ⟨?_, ?_, min_le_right _ _, ?_⟩
  · rw [trajectoryPoints_length, hres]
    omega
  · rw [animationPoints_length]
    omega
  · have harg : (((totalFrames - 1) + 1 : ℕ) : ℝ) / (totalFrames : ℝ) *
        (trajectoryResolution : ℝ) = 450 := by
      rw [htf, hres]
      norm_num
    have hprog : animationProgress (totalFrames - 1) = 450 := by
      rw [animationProgress, harg]
      exact Nat.floor_ofNat 450
    rw [activeTrajectory, hprog, trajectoryPoints_length]
    exact List.take_of_length_le (le_of_eq trajectoryPoints_length)

/-- Witness for `compositor_in_bounds` at a concrete input. -/
theorem compositor_in_bounds_witness :
    0 < totalFrames ∧ 0 < animationPoints.length :=
  ⟨by decide, (compositor_in_bounds 0 (by decide)).2.1⟩

/-! The video assembler (lines 635-663): a trace model.  `decode` maps a
frame index to the image read back from disk, or `none` when the frame fails
to decode (`img.empty()`). -/

/-- One observable action of the video assembler. -/
inductive AsmEvent (Img : Type) where
  | write (idx : ℕ) (img : Img)
  | release
deriving DecidableEq

def holdFrames : ℕ := fps * 3

/-- The event trace of the assembly loops: the animation-frame loop
(`0..total_frames`), then the proof-panel loop (`0..fps*3`, frames
`total_frames + j`), each writing only frames that decode non-empty, then a
single `release`. -/
def assembleEvents {Img : Type} (decode : ℕ → Option Img) : List (AsmEvent Img) :=
  ((List.range totalFrames).filterMap fun i => (decode i).map (AsmEvent.write i)) ++
    ((List.range holdFrames).filterMap fun j =>
      (decode (totalFrames + j)).map (AsmEvent.write (totalFrames + j))) ++
    [AsmEvent.release]

def eventIndex {Img : Type} : AsmEvent Img → Option ℕ
  | AsmEvent.write idx _ => some idx
  | AsmEvent.release => none

def isReleaseEvent {Img : Type} : AsmEvent Img → Bool
  | AsmEvent.write _ _ => false
  | AsmEvent.release => true

/-- The sequence numbers written to the video stream, in order. -/
def writtenIndices {Img : Type} (decode : ℕ → Option Img) : List ℕ :=
  (assembleEvents decode).filterMap eventIndex

lemma writtenIndices_chunk {Img : Type} (decode : ℕ → Option Img) (l : List ℕ) :
    (l.filterMap fun i => (decode i).map (AsmEvent.write i)).filterMap eventIndex =
      l.filter fun k => (decode k).isSome := by
  induction l with
  | nil => rfl
  | cons a t ih =>
    cases h : decode a with
    | none => simp [h, ih, List.filter_cons]
    | some img => simp [h, ih, List.filter_cons, eventIndex]

/-- C4: the video assembler writes frames strictly by ascending sequence
number — the animation frames `0..totalFrames` then the `fps * 3` repeated
proof-panel frames — writing exactly the frames that decode (silently
skipping any frame that fails to decode), and it releases the output stream
exactly once, as the last event of the trace. -/
theorem assembler_spec {Img : Type} (decode : ℕ → Option Img) :
    writtenIndices decode =
      (List.range (totalFrames + holdFrames)).filter (fun k => (decode k).isSome) ∧
    (writtenIndices decode).Pairwise (· < ·) ∧
    (∀ k, k ∈ writtenIndices decode ↔
      k < totalFrames + holdFrames ∧ (decode k).isSome = true) ∧
    (assembleEvents decode).countP isReleaseEvent = 1 ∧
    (assembleEvents decode).getLast? = some AsmEvent.release := by
  have hsecond : ((List.range holdFrames).filterMap fun j =>
      (decode (totalFrames + j)).map (AsmEvent.write (totalFrames + j))) =
      ((List.range holdFrames).map (totalFrames + ·)).filterMap fun i =>
        (decode i).map (AsmEvent.write i) := by
    rw [List.filterMap_map]
    rfl
  have hwrit : writtenIndices decode =
      (List.range (totalFrames + holdFrames)).filter fun k => (decode k).isSome := by
    rw [writtenIndices, assembleEvents, List.filterMap_append, List.filterMap_append,
      hsecond, writtenIndices_chunk, writtenIndices_chunk]
    have hrel : ([AsmEvent.release] : List (AsmEvent Img)).filterMap eventIndex = [] := rfl
    rw [hrel, List.append_nil, List.range_add, List.filter_append]
  refine ⟨hwrit, ?_, ?_, ?_, ?_⟩
  · rw [hwrit]
    exact (List.pairwise_lt_range _).filter _
  · intro k
    rw [hwrit, List.mem_filter, List.mem_range]
  · rw [assembleEvents, List.countP_append, List.countP_append]
    have hz : ∀ l : List ℕ,
        (l.filterMap fun i => (decode i).map (AsmEvent.write i)).countP isReleaseEvent
          = 0 := by
      intro l
      rw [List.countP_eq_zero]
      intro e he
      rw [List.mem_filterMap] at he
      obtain ⟨i, _, hei⟩ := he
      cases h : decode i with
      | none => rw [h] at hei; exact absurd hei (by simp)
      | some img =>
        rw [h] at hei
        simp only [Option.map_some', Option.some.injEq] at hei
        rw [← hei]
        simp [isReleaseEvent]
    rw [hsecond, hz, hz]
    rfl
  · rw [assembleEvents]
    exact List.getLast?_concat _

/-! The proof-panel per-line style selection (lines 567-580 and 602-615 of
the source; both columns use the same rule cascade).  The pattern strings are
transcribed character-for-character from the source file (which stores
mojibake sequences, e.g. the bullet is the three characters U+201A U+00C4
U+00A2). -/

def strStartsWith (s pat : String) : Bool := pat.data.isPrefixOf s.data

def strContains (s pat : String) : Bool :=
  (List.range (s.data.length + 1)).any fun k => pat.data.isPrefixOf (s.data.drop k)

/-- The `(font_scale, color)` selection for one proof-panel line: a fixed,
ordered, first-match-wins cascade.  Colors are OpenCV `Scalar::new` values. -/
noncomputable def lineStyle (text : String) : ℝ × (ℝ × ℝ × ℝ × ℝ) :=
  if strStartsWith text "\uF8FF\u00FC\u00F6\u00B4" || strContains text "IMPOSSIBLE" ||
      strContains text "FALSE" then
    (0.8, (0, 0, 200, 0))
  else if strStartsWith text "\uF8FF\u00FC\u00EE\u00A8" || strContains text "COMPLETE" then
    (0.8, (0, 150, 0, 0))
  else if strContains text "SPECIFICATIONS" || strContains text "VERIFICATION" then
    (0.7, (200, 0, 0, 0))
  else if strContains text "‚ïê" then
    (0.6, (100, 100, 100, 0))
  else if strStartsWith text "‚Ä¢" then
    (0.6, (0, 0, 0, 0))
  else
    (0.7, (0, 0, 0, 0))

/-- C8: style selection is first-match-wins over the fixed ordered rule list
(panic/violation keywords, completion keywords, spec/verification keywords,
separator lines, bulleted lines, default); in particular any line containing
"IMPOSSIBLE" — whether or not it also carries a bullet — resolves to the
red, large-scale rule. -/
theorem lineStyle_first_match (t : String) :
    (strContains t "IMPOSSIBLE" = true → lineStyle t = (0.8, (0, 0, 200, 0))) ∧
    ((strStartsWith t "\uF8FF\u00FC\u00F6\u00B4" || strContains t "IMPOSSIBLE" ||
        strContains t "FALSE") = true → lineStyle t = (0.8, (0, 0, 200, 0))) ∧
    ((strStartsWith t "\uF8FF\u00FC\u00F6\u00B4" || strContains t "IMPOSSIBLE" ||
        strContains t "FALSE") = false →
      (strStartsWith t "\uF8FF\u00FC\u00EE\u00A8" || strContains t "COMPLETE") = true →
      lineStyle t = (0.8, (0, 150, 0, 0))) ∧
    ((strStartsWith t "\uF8FF\u00FC\u00F6\u00B4" || strContains t "IMPOSSIBLE" ||
        strContains t "FALSE") = false →
      (strStartsWith t "\uF8FF\u00FC\u00EE\u00A8" || strContains t "COMPLETE") = false →
      (strContains t "SPECIFICATIONS" || strContains t "VERIFICATION") = true →
      lineStyle t = (0.7, (200, 0, 0, 0))) ∧
    ((strStartsWith t "\uF8FF\u00FC\u00F6\u00B4" || strContains t "IMPOSSIBLE" ||
        strContains t "FALSE") = false →
      (strStartsWith t "\uF8FF\u00FC\u00EE\u00A8" || strContains t "COMPLETE") = false →
      (strContains t "SPECIFICATIONS" || strContains t "VERIFICATION") = false →
      strContains t "‚ïê" = true →
      lineStyle t = (0.6, (100, 100, 100, 0))) ∧
    ((strStartsWith t "\uF8FF\u00FC\u00F6\u00B4" || strContains t "IMPOSSIBLE" ||
        strContains t "FALSE") = false →
      (strStartsWith t "\uF8FF\u00FC\u00EE\u00A8" || strContains t "COMPLETE") = false →
      (strContains t "SPECIFICATIONS" || strContains t "VERIFICATION") = false →
      strContains t "‚ïê" = false →
      strStartsWith t "‚Ä¢" = true →
      lineStyle t = (0.6, (0, 0, 0, 0))) ∧
    ((strStartsWith t "\uF8FF\u00FC\u00F6\u00B4" || strContains t "IMPOSSIBLE" ||
        strContains t "FALSE") = false →
      (strStartsWith t "\uF8FF\u00FC\u00EE\u00A8" || strContains t "COMPLETE") = false →
      (strContains t "SPECIFICATIONS" || strContains t "VERIFICATION") = false →
      strContains t "‚ïê" = false →
      strStartsWith t "‚Ä¢" = false →
      lineStyle t = (0.7, (0, 0, 0, 0))) := by
  refine ⟨?_, ?_, ?_, ?_, ?_, ?_, ?_⟩
  · intro h
    simp [lineStyle, h]
  · intro h
    simp [lineStyle, h]
  · intro h1 h2
    simp [lineStyle, h1, h2]
  · intro h1 h2 h3
    simp [lineStyle, h1, h2, h3]
  · intro h1 h2 h3 h4
    simp [lineStyle, h1, h2, h3, h4]
  · intro h1 h2 h3 h4 h5
    simp [lineStyle, h1, h2, h3, h4, h5]
  · intro h1 h2 h3 h4 h5
    simp [lineStyle, h1, h2, h3, h4, h5]

/-- Witness for `lineStyle_first_match`: a line that both carries a bullet
and contains "IMPOSSIBLE" resolves to the red, large-scale rule. -/
theorem lineStyle_first_match_witness :
    strContains "‚Ä¢ IMPOSSIBLE" "IMPOSSIBLE" = true ∧
    strStartsWith "‚Ä¢ IMPOSSIBLE" "‚Ä¢" = true ∧
    lineStyle "‚Ä¢ IMPOSSIBLE" = (0.8, (0, 0, 200, 0)) :=
  ⟨by decide, by decide,
    (lineStyle_first_match "‚Ä¢ IMPOSSIBLE").1 (by decide)⟩

/-! The per-frame chart/legend description (C9).  `ChartLayout` bounds and the
reference lines are computed once before the frame loop; the legend entry
list is rebuilt by each loop iteration from loop-invariant values only, so it
is the same list for every frame.  Texts are transcribed exactly from the
source (Rust format placeholders kept in the template, arguments modelled as
the real values passed to `format!`). -/

inductive PColor where
  | black
  | blue
  | red
  | magenta
deriving DecidableEq

inductive LegendText where
  | lit (s : String)
  | fmt (template : String) (args : List ℝ)

structure LegendEntry where
  text : LegendText
  size : ℕ
  color : PColor
  bold : Bool

/-- The `compact_info` list built inside the frame loop (lines 227-421). -/
noncomputable def compactInfo : List LegendEntry :=
  [
    { text := LegendText.lit "CAMBODIA-THAILAND BM-21 ANALYSIS", size := 14, color := PColor.black, bold := true },
    { text := LegendText.fmt "Max Range: \x7b:.0\x7dkm" [bm21Specs.max_range_operational / 1000], size := 13, color := PColor.blue, bold := false },
    { text := LegendText.fmt "Distance: \x7b:.1\x7dkm" [actualDistance / 1000], size := 13, color := PColor.black, bold := false },
    { text := LegendText.fmt "Shortfall: \x7b:.1\x7dkm" [rangeShortfall / 1000], size := 13, color := PColor.red, bold := false },
    { text := LegendText.fmt "Target \x7b:.1\x7d\u221A\u00F3 TOO FAR!" [rangeMultiplier], size := 13, color := PColor.magenta, bold := true },
    { text := LegendText.fmt "Physics violation: \x7b:.0\x7d%" [rangeShortfall / bm21Specs.max_range_operational * 100], size := 13, color := PColor.red, bold := false },
    { text := LegendText.lit "WHY MAX RANGE \u201A\u00E2\u2020 ACTUAL DISTANCE:", size := 13, color := PColor.black, bold := true },
    { text := LegendText.lit "\u201A\u00C4\u00A2 BM-21 max range: 15km (ballistic limit)", size := 13, color := PColor.blue, bold := false },
    { text := LegendText.fmt "\u201A\u00C4\u00A2 Required distance: \x7b:.1\x7dkm (GPS measured)" [actualDistance / 1000], size := 13, color := PColor.blue, bold := false },
    { text := LegendText.lit "\u201A\u00C4\u00A2 Physics: Projectiles follow parabolic paths", size := 13, color := PColor.blue, bold := false },
    { text := LegendText.lit "\u201A\u00C4\u00A2 Earth curvature & air resistance ignored", size := 13, color := PColor.blue, bold := false },
    { text := LegendText.fmt "\u201A\u00C4\u00A2 Gap: \x7b:.1\x7dkm cannot be bridged by any rocket" [rangeShortfall / 1000], size := 13, color := PColor.red, bold := false },
    { text := LegendText.lit "\uF8FF\u00FC\u00EC\u00EA MATHEMATICAL CALCULATIONS:", size := 13, color := PColor.black, bold := true },
    { text := LegendText.lit "##############################################", size := 13, color := PColor.black, bold := false },
    { text := LegendText.lit "\u201A\u00EB\u2020 Haversine Distance Formula:", size := 13, color := PColor.blue, bold := true },
    { text := LegendText.lit "d = 2R \u201A\u00E3\u00D6 arcsin(\u201A\u00E0\u00F6(sin\u00AC\u2264(\u0152\u00EE\u0153\u00DC/2) + cos(\u0153\u00DC\u201A\u00C7\u00C5)cos(\u0153\u00DC\u201A\u00C7\u00C7)sin\u00AC\u2264(\u0152\u00EE\u0152\u00AA/2)))", size := 13, color := PColor.blue, bold := false },
    { text := LegendText.fmt "Given: \u0153\u00DC\u201A\u00C7\u00C5=\x7b:.4\x7d\u00AC\u221E, \u0152\u00AA\u201A\u00C7\u00C5=\x7b:.4\x7d\u00AC\u221E, \u0153\u00DC\u201A\u00C7\u00C7=\x7b:.7\x7d\u00AC\u221E, \u0152\u00AA\u201A\u00C7\u00C7=\x7b:.7\x7d\u00AC\u221E" [cambodiaLat, cambodiaLon, thaiLat, thaiLon], size := 13, color := PColor.blue, bold := false },
    { text := LegendText.fmt "\u0152\u00EE\u0153\u00DC = \x7b:.4\x7d\u00AC\u221E, \u0152\u00EE\u0152\u00AA = \x7b:.4\x7d\u00AC\u221E, R = 6,371km" [thaiLat - cambodiaLat, thaiLon - cambodiaLon], size := 13, color := PColor.blue, bold := false },
    { text := LegendText.fmt "\u201A\u00E0\u00A5 d = \x7b:.1\x7dkm (GPS verified)" [actualDistance / 1000], size := 13, color := PColor.blue, bold := true },
    { text := LegendText.lit "\u201A\u00EB\u00B0 Projectile Range Formula:", size := 13, color := PColor.blue, bold := true },
    { text := LegendText.lit "R = (v\u201A\u00C7\u00C4\u00AC\u2264 \u201A\u00E3\u00D6 sin(2\u0152\u220F)) / g #FIND R", size := 13, color := PColor.blue, bold := false },
    { text := LegendText.lit "\uF8FF\u00FC\u00EC\u00E3 CONSTANT DEFINITIONS:", size := 13, color := PColor.black, bold := true },
    { text := LegendText.fmt "\u201A\u00C4\u00A2 v\u201A\u00C7\u00C4 = \x7b:.0\x7d m/s (Initial muzzle velocity of BM-21 rocket)" [v0], size := 13, color := PColor.blue, bold := false },
    { text := LegendText.lit "\u201A\u00C4\u00A2 \u0152\u220F = 45\u00AC\u221E (Optimal launch angle for maximum range)", size := 13, color := PColor.blue, bold := false },
    { text := LegendText.lit "\u201A\u00C4\u00A2 g = 9.81 m/s\u00AC\u2264 (Earth\u0027s gravitational acceleration)", size := 13, color := PColor.blue, bold := false },
    { text := LegendText.lit "\u201A\u00C4\u00A2 R = 6,371 km (Earth\u0027s mean radius for Haversine)", size := 13, color := PColor.blue, bold := false },
    { text := LegendText.lit "\uF8FF\u00FC\u00EC\u00E4 Then: ", size := 13, color := PColor.black, bold := true },
    { text := LegendText.fmt "R = (\x7b:.0\x7d\u00AC\u2264 \u201A\u00E3\u00D6 sin(90\u00AC\u221E)) / 9.81" [v0], size := 13, color := PColor.blue, bold := false },
    { text := LegendText.fmt "R = \x7b:.0\x7d \u201A\u00E3\u00D6 1.0 / 9.81 = \x7b:.1\x7dkm" [v0 ^ 2, rangeTheoretical / 1000], size := 13, color := PColor.blue, bold := false },
    { text := LegendText.lit "\u201A\u00EB\u00A2 Impossibility Analysis:", size := 13, color := PColor.red, bold := true },
    { text := LegendText.fmt "Required Distance / Max Range = \x7b:.1\x7dkm / \x7b:.0\x7dkm" [actualDistance / 1000, bm21Specs.max_range_operational / 1000], size := 13, color := PColor.red, bold := false },
    { text := LegendText.fmt "Impossibility Factor = \x7b:.1\x7d\u221A\u00F3 TOO FAR" [rangeMultiplier], size := 20, color := PColor.red, bold := true }]

/-- `operational_range_line` (computed once, before the frame loop). -/
noncomputable def operationalRangeLine : List (ℝ × ℝ) :=
  [(bm21Specs.max_range_operational, 0), (bm21Specs.max_range_operational, chartYMax * 0.8)]

/-- `target_distance_line` (computed once, before the frame loop). -/
noncomputable def targetDistanceLine : List (ℝ × ℝ) :=
  [(actualDistance, 0), (actualDistance, chartYMax * 0.8)]

/-- Everything the compositor draws on frame `i`: the fixed chart bounds,
reference lines and legend, plus the parts that genuinely vary with `i`
(active-path prefix length, marker, ghost trail). -/
structure FrameSpec where
  xMax : ℝ
  yMax : ℝ
  opLine : List (ℝ × ℝ)
  targetLine : List (ℝ × ℝ)
  legend : List LegendEntry
  activeLen : ℕ
  marker : Option (ℝ × ℝ)
  trail : List (ℝ × ℝ)

noncomputable def renderFrame (i : ℕ) : FrameSpec :=
  { xMax := chartXMax
    yMax := chartYMax
    opLine := operationalRangeLine
    targetLine := targetDistanceLine
    legend := compactInfo
    activeLen := min (animationProgress i) trajectoryPoints.length
    marker := animationPoints[i]?
    trail := ghostTrail animationPoints i }

/-- C9: for the fixed scenario, the chart axis bounds, the reference lines
and the legend text are identical in every rendered frame — no per-frame
recomputation changes them; in particular the axis bounds of frame `0` equal
those of frame `totalFrames - 1`. -/
theorem frame_invariance :
    (∀ i j : ℕ,
      (renderFrame i).xMax = (renderFrame j).xMax ∧
      (renderFrame i).yMax = (renderFrame j).yMax ∧
      (renderFrame i).opLine = (renderFrame j).opLine ∧
      (renderFrame i).targetLine = (renderFrame j).targetLine ∧
      (renderFrame i).legend = (renderFrame j).legend) ∧
    (renderFrame 0).xMax = (renderFrame (totalFrames - 1)).xMax ∧
    (renderFrame 0).yMax = (renderFrame (totalFrames - 1)).yMax :=
  ⟨fun _ _ => ⟨rfl, rfl, rfl, rfl, rfl⟩, rfl, rfl⟩

/-! Interval-arithmetic evaluation of the haversine distance at the
scenario coordinates (C1, C2).  All bounds are derived from
`3.141592 < π < 3.141593`, `sin x < x`, `x - x³/4 < sin x` (for
`0 < x ≤ 1`) and `cos x = 1 - 2 sin²(x/2)`. -/

lemma sin_bounds (x l u : ℝ) (hl : l ≤ x) (hu : x ≤ u) (h0 : 0 < l) (h1 : u ≤ 1) :
    l - u ^ 3 / 4 ≤ Real.sin x ∧ Real.sin x ≤ u := by
  have hx0 : 0 < x := lt_of_lt_of_le h0 hl
  constructor
  · have hc := Real.sin_gt_sub_cube hx0 (le_trans hu h1)
    have hxu : x ^ 3 ≤ u ^ 3 := pow_le_pow_left₀ (le_of_lt hx0) hu 3
    linarith
  · exact le_trans (le_of_lt (Real.sin_lt hx0)) hu

lemma cos_double_sin_sq (x : ℝ) : Real.cos x = 1 - 2 * Real.sin (x / 2) ^ 2 := by
  have h1 := Real.cos_two_mul (x / 2)
  have h2 := Real.sin_sq_add_cos_sq (x / 2)
  have h3 : 2 * (x / 2) = x := by ring
  rw [h3] at h1
  linarith

lemma cos_bounds (x l u : ℝ) (hl : l ≤ x / 2) (hu : x / 2 ≤ u) (h0 : 0 < l)
    (h1 : u ≤ 1) (hlu : 0 ≤ l - u ^ 3 / 4) :
    1 - 2 * u ^ 2 ≤ Real.cos x ∧ Real.cos x ≤ 1 - 2 * (l - u ^ 3 / 4) ^ 2 := by
  obtain ⟨hs1, hs2⟩ := sin_bounds (x / 2) l u hl hu h0 h1
  have hc := cos_double_sin_sq x
  have hsin0 : 0 ≤ Real.sin (x / 2) := le_trans hlu hs1
  constructor
  · have hsq : Real.sin (x / 2) ^ 2 ≤ u ^ 2 := by nlinarith
    linarith
  · have hsq : (l - u ^ 3 / 4) ^ 2 ≤ Real.sin (x / 2) ^ 2 := by nlinarith
    linarith

/-- The quantity `a` computed inside `haversine_distance` at the scenario
coordinates. -/
noncomputable def havA : ℝ :=
  Real.sin (toRadians (thaiLat - cambodiaLat) / 2) ^ 2 +
    Real.cos (toRadians cambodiaLat) * Real.cos (toRadians thaiLat) *
      Real.sin (toRadians (thaiLon - cambodiaLon) / 2) ^ 2

lemma actualDistance_eq :
    actualDistance = 6371000 * (2 * atan2 (Real.sqrt havA) (Real.sqrt (1 - havA))) := rfl

lemma x1_bounds : (0.0066667243 : ℝ) ≤ toRadians (thaiLat - cambodiaLat) / 2 ∧
    toRadians (thaiLat - cambodiaLat) / 2 ≤ 0.0066667266 := by
  rw [toRadians, thaiLat, cambodiaLat]
  constructor <;> nlinarith [Real.pi_gt_d6, Real.pi_lt_d6]

lemma s1_sq_bounds :
    (0.0000444442 : ℝ) ≤ Real.sin (toRadians (thaiLat - cambodiaLat) / 2) ^ 2 ∧
    Real.sin (toRadians (thaiLat - cambodiaLat) / 2) ^ 2 ≤ 0.0000444453 := by
  obtain ⟨h1, h2⟩ := x1_bounds
  obtain ⟨hs1, hs2⟩ := sin_bounds _ 0.0066667243 0.0066667266 h1 h2
    (by norm_num) (by norm_num)
  have hm : (0.0066666502 : ℝ) ≤ Real.sin (toRadians (thaiLat - cambodiaLat) / 2) := by
    nlinarith
  have hpos : (0 : ℝ) ≤ Real.sin (toRadians (thaiLat - cambodiaLat) / 2) := by linarith
  constructor
  · nlinarith
  · nlinarith

lemma x2_bounds : (0.0092626314 : ℝ) ≤ toRadians (thaiLon - cambodiaLon) / 2 ∧
    toRadians (thaiLon - cambodiaLon) / 2 ≤ 0.0092626345 := by
  rw [toRadians, thaiLon, cambodiaLon]
  constructor <;> nlinarith [Real.pi_gt_d6, Real.pi_lt_d6]

lemma s2_sq_bounds :
    (0.0000857926 : ℝ) ≤ Real.sin (toRadians (thaiLon - cambodiaLon) / 2) ^ 2 ∧
    Real.sin (toRadians (thaiLon - cambodiaLon) / 2) ^ 2 ≤ 0.0000857965 := by
  obtain ⟨h1, h2⟩ := x2_bounds
  obtain ⟨hs1, hs2⟩ := sin_bounds _ 0.0092626314 0.0092626345 h1 h2
    (by norm_num) (by norm_num)
  have hm : (0.0092624326 : ℝ) ≤ Real.sin (toRadians (thaiLon - cambodiaLon) / 2) := by
    nlinarith
  have hpos : (0 : ℝ) ≤ Real.sin (toRadians (thaiLon - cambodiaLon) / 2) := by linarith
  constructor
  · nlinarith
  · nlinarith

lemma y1_bounds : (0.1252788349 : ℝ) ≤ toRadians cambodiaLat / 2 ∧
    toRadians cambodiaLat / 2 ≤ 0.1252788749 := by
  rw [toRadians, cambodiaLat]
  constructor <;> nlinarith [Real.pi_gt_d6, Real.pi_lt_d6]

lemma c1_bounds : (0.9686104 : ℝ) ≤ Real.cos (toRadians cambodiaLat) ∧
    Real.cos (toRadians cambodiaLat) ≤ 0.9688563 := by
  obtain ⟨h1, h2⟩ := y1_bounds
  obtain ⟨hc1, hc2⟩ := cos_bounds _ 0.1252788349 0.1252788749 h1 h2
    (by norm_num) (by norm_num) (by norm_num)
  constructor
  · nlinarith
  · nlinarith

lemma y2_bounds : (0.1319455593 : ℝ) ≤ toRadians thaiLat / 2 ∧
    toRadians thaiLat / 2 ≤ 0.1319456014 := by
  rw [toRadians, thaiLat]
  constructor <;> nlinarith [Real.pi_gt_d6, Real.pi_lt_d6]

lemma c2_bounds : (0.9651807 : ℝ) ≤ Real.cos (toRadians thaiLat) ∧
    Real.cos (toRadians thaiLat) ≤ 0.9654832 := by
  obtain ⟨h1, h2⟩ := y2_bounds
  obtain ⟨hc1, hc2⟩ := cos_bounds _ 0.1319455593 0.1319456014 h1 h2
    (by norm_num) (by norm_num) (by norm_num)
  constructor
  · nlinarith
  · nlinarith

lemma havA_bounds : (0.00012465 : ℝ) ≤ havA ∧ havA ≤ 0.00012471 := by
  obtain ⟨hs1l, hs1u⟩ := s1_sq_bounds
  obtain ⟨hs2l, hs2u⟩ := s2_sq_bounds
  obtain ⟨hc1l, hc1u⟩ := c1_bounds
  obtain ⟨hc2l, hc2u⟩ := c2_bounds
  rw [havA]
  have hs2pos : (0 : ℝ) ≤ Real.sin (toRadians (thaiLon - cambodiaLon) / 2) ^ 2 :=
    sq_nonneg _
  have hc2pos : (0 : ℝ) ≤ Real.cos (toRadians thaiLat) := by linarith
  have hc1pos : (0 : ℝ) ≤ Real.cos (toRadians cambodiaLat) := by linarith
  have h12l : (0.9686104 : ℝ) * 0.9651807 ≤
      Real.cos (toRadians cambodiaLat) * Real.cos (toRadians thaiLat) :=
    mul_le_mul hc1l hc2l (by norm_num) hc1pos
  have h12u : Real.cos (toRadians cambodiaLat) * Real.cos (toRadians thaiLat) ≤
      0.9688563 * 0.9654832 :=
    mul_le_mul hc1u hc2u hc2pos (by norm_num)
  have hprodl : (0.9686104 : ℝ) * 0.9651807 * 0.0000857926 ≤
      Real.cos (toRadians cambodiaLat) * Real.cos (toRadians thaiLat) *
        Real.sin (toRadians (thaiLon - cambodiaLon) / 2) ^ 2 :=
    mul_le_mul h12l hs2l (by norm_num) (mul_nonneg hc1pos hc2pos)
  have hprodu : Real.cos (toRadians cambodiaLat) * Real.cos (toRadians thaiLat) *
        Real.sin (toRadians (thaiLon - cambodiaLon) / 2) ^ 2 ≤
      0.9688563 * 0.9654832 * 0.0000857965 :=
    mul_le_mul h12u hs2u hs2pos (by norm_num)
  constructor
  · linarith
  · linarith

lemma sqrtA_bounds : (0.0111646 : ℝ) ≤ Real.sqrt havA ∧
    Real.sqrt havA ≤ 0.0111675 := by
  obtain ⟨h1, h2⟩ := havA_bounds
  constructor
  · exact (Real.le_sqrt (by norm_num) (by linarith)).mpr (by nlinarith)
  · calc Real.sqrt havA ≤ Real.sqrt ((0.0111675 : ℝ) ^ 2) :=
        Real.sqrt_le_sqrt (by nlinarith)
      _ = 0.0111675 := Real.sqrt_sq (by norm_num)

lemma atan2_sqrt_eq (a : ℝ) (h0 : 0 ≤ a) (h1 : a < 1) :
    atan2 (Real.sqrt a) (Real.sqrt (1 - a)) = Real.arcsin (Real.sqrt a) := by
  have hx : 0 < Real.sqrt (1 - a) := Real.sqrt_pos.mpr (by linarith)
  rw [atan2, if_pos hx]
  have hmem : Real.sqrt a ∈ Set.Ioo (-(1 : ℝ)) 1 := by
    constructor
    · have := Real.sqrt_nonneg a
      linarith
    · calc Real.sqrt a < Real.sqrt 1 := Real.sqrt_lt_sqrt h0 h1
        _ = 1 := Real.sqrt_one
  rw [Real.arcsin_eq_arctan hmem, Real.sq_sqrt h0]

lemma arcsinA_lb : (0.0111646 : ℝ) ≤ Real.arcsin (Real.sqrt havA) := by
  have hs := sqrtA_bounds.1
  have hsin : Real.sin 0.0111646 ≤ Real.sqrt havA :=
    le_trans (le_of_lt (Real.sin_lt (by norm_num))) hs
  have hmono := Real.monotone_arcsin hsin
  rwa [Real.arcsin_sin (by nlinarith [Real.pi_gt_d6]) (by nlinarith [Real.pi_gt_d6])]
    at hmono

lemma arcsinA_ub : Real.arcsin (Real.sqrt havA) ≤ 0.011168 := by
  have hs := sqrtA_bounds.2
  have hg := Real.sin_gt_sub_cube (show (0 : ℝ) < 0.011168 by norm_num)
    (by norm_num)
  have hsin : Real.sqrt havA ≤ Real.sin 0.011168 := by nlinarith
  have hmono := Real.monotone_arcsin hsin
  rwa [Real.arcsin_sin (by nlinarith [Real.pi_gt_d6]) (by nlinarith [Real.pi_gt_d6])]
    at hmono

lemma actualDistance_bounds : 142200 < actualDistance ∧ actualDistance < 142400 := by
  have h0a : (0 : ℝ) ≤ havA := le_trans (by norm_num) havA_bounds.1
  have h1a : havA < 1 := lt_of_le_of_lt havA_bounds.2 (by norm_num)
  rw [actualDistance_eq, atan2_sqrt_eq havA h0a h1a]
  constructor
  · nlinarith [arcsinA_lb]
  · nlinarith [arcsinA_ub]

/-! The final-verdict lines of `proof_lines` (lines 500-510). -/

noncomputable def verdictLine : String :=
  if 0 < rangeShortfall then "[IMPOSSIBLE] CLAIM STATUS: PHYSICALLY IMPOSSIBLE"
  else "[POSSIBLE] CLAIM STATUS: THEORETICALLY POSSIBLE"

noncomputable def conclusionLine : String :=
  if 0 < rangeShortfall then "[CONCLUSION] ATTACK IMPOSSIBLE FROM THIS DISTANCE"
  else "[CONCLUSION] ATTACK WITHIN THEORETICAL RANGE"

/-- C1 counterexample: the great-circle distance at the reference inputs is
below 180 km, so it is not approximately 181-182 km (the smallest value
within 0.5% of 181 km is 180095 m). -/
theorem actualDistance_below_180km : actualDistance < 180000 := by
  have h := actualDistance_bounds.2
  linarith

/-- C1 (amended): for the reference inputs the great-circle distance
evaluates to approximately 142.3 km (strictly between 142.2 km and
142.4 km), this distance exceeds the fixed 15000 m operational-range
threshold, and consequently the proof-panel verdict lines take the
impossible branch with a positive range shortfall. -/
theorem scenario_impossible_verdict :
    142200 < actualDistance ∧ actualDistance < 142400 ∧
    bm21Specs.max_range_operational < actualDistance ∧
    0 < rangeShortfall ∧
    verdictLine = "[IMPOSSIBLE] CLAIM STATUS: PHYSICALLY IMPOSSIBLE" ∧
    conclusionLine = "[CONCLUSION] ATTACK IMPOSSIBLE FROM THIS DISTANCE" := by
  obtain ⟨hlo, hhi⟩ := actualDistance_bounds
  have hop : bm21Specs.max_range_operational = 15000 := rfl
  have hshort : 0 < rangeShortfall := by
    rw [rangeShortfall, hop]
    linarith
  exact ⟨hlo, hhi, by rw [hop]; linarith, hshort,
    by rw [verdictLine, if_pos hshort],
    by rw [conclusionLine, if_pos hshort]⟩

lemma sin_two_theta : Real.sin (2 * theta) = 1 := by
  have h : 2 * theta = Real.pi / 2 := by
    rw [theta, optimalAngle]
    ring
  rw [h, Real.sin_pi_div_two]

lemma rangeTheoretical_eq : rangeTheoretical = 5290000 / 109 := by
  rw [rangeTheoretical, sin_two_theta, v0, grav]
  norm_num

lemma maxDistance_eq : maxDistance = actualDistance := by
  have hb := actualDistance_bounds.1
  have h1 : rangeTheoretical ≤ actualDistance := by
    rw [rangeTheoretical_eq]
    linarith
  have h2 : bm21Specs.max_range_operational ≤ actualDistance := by
    have hop : bm21Specs.max_range_operational = 15000 := rfl
    rw [hop]
    linarith
  rw [maxDistance, max_eq_left h1, max_eq_left h2]

/-- C2 counterexample: in the default scenario the x-axis bound is strictly
smaller than the maximum of theoretical range, operational range and actual
target distance, so it is not a fixed margin over that three-way maximum. -/
theorem chartXMax_lt_maxDistance : chartXMax < maxDistance := by
  have hb := actualDistance_bounds.1
  have hlt : rangeTheoretical < maxDistance := by
    rw [maxDistance_eq, rangeTheoretical_eq]
    linarith
  rw [chartXMax, if_pos hlt, maxDistance_eq]
  rw [max_eq_left (by rw [rangeTheoretical_eq]; norm_num)]
  rw [rangeTheoretical_eq]
  linarith

/-- C2 (amended): the x-axis bound is computed once by a branch on the
three-way maximum: since the theoretical range is strictly below that
maximum in the default scenario, `chart_x_max = max (2.5 × theoretical
range) 25000 = 13225000/109 ≈ 121330.3 m`, which is smaller than the actual
target distance (so the bound is not a margin over the three-way maximum). -/
theorem chartXMax_formula :
    rangeTheoretical < maxDistance ∧
    chartXMax = max (rangeTheoretical * 2.5) 25000 ∧
    chartXMax = 13225000 / 109 ∧
    chartXMax < actualDistance := by
  have hb := actualDistance_bounds.1
  have hlt : rangeTheoretical < maxDistance := by
    rw [maxDistance_eq, rangeTheoretical_eq]
    linarith
  have hval : chartXMax = 13225000 / 109 := by
    rw [chartXMax, if_pos hlt]
    rw [max_eq_left (by rw [rangeTheoretical_eq]; norm_num)]
    rw [rangeTheoretical_eq]
    norm_num
  refine ⟨hlt, by rw [chartXMax, if_pos hlt], hval, ?_⟩
  rw [hval]
  linarith

end BM21
